import Mathlib

/-!
Verification development for a pair of per-identity rate limiters:
a sliding-window limiter (`task_1.py`, class `SlidingWindowRateLimiter`)
and a fixed-interval throttling limiter (`task_2.py`, class
`ThrottlingRateLimiter`).  Timestamps are modelled as rationals; the
Python dictionaries are modelled as functions `String → Option _`.
-/

/-- A Python-dict update: `d[k] = v` (when `v = some x`) or `del d[k]`
(when `v = none`). -/
def setStore {α : Type} (f : String → Option α) (k : String) (v : Option α) :
    String → Option α :=
  fun x => if x = k then v else f x

/-- `task_1.py`: class `SlidingWindowRateLimiter`.  `user_records` maps a
user id to the deque of message timestamps (oldest first); absence of a
key is `none`. -/
structure SlidingWindowRateLimiter where
  window_size : ℚ
  max_requests : ℤ
  user_records : String → Option (List ℚ)

namespace SlidingWindowRateLimiter

/-- `SlidingWindowRateLimiter.__init__`: stores the parameters and an empty
record dictionary (the source performs no validation). -/
def init (window_size : ℚ) (max_requests : ℤ) : SlidingWindowRateLimiter :=
  ⟨window_size, max_requests, fun _ => none⟩

/-- The `while` loop of `_cleanup_window`: pop timestamps from the left
while the oldest satisfies `current_time - window[0] >= window_size`. -/
def cleanupDeque (window_size now : ℚ) : List ℚ → List ℚ
  | [] => []
  | t :: rest =>
      if window_size ≤ now - t then cleanupDeque window_size now rest
      else t :: rest

/-- `SlidingWindowRateLimiter._cleanup_window`. -/
def cleanup_window (L : SlidingWindowRateLimiter) (user_id : String)
    (now : ℚ) : SlidingWindowRateLimiter :=
  match L.user_records user_id with
  | none => L
  | some w =>
      let w' := cleanupDeque L.window_size now w
      if w' = [] then
        { L with user_records := setStore L.user_records user_id none }
      else
        { L with user_records := setStore L.user_records user_id (some w') }

/-- `SlidingWindowRateLimiter.can_send_message`; the first component is the
state after the cleanup that starts the call. -/
def can_send_message (L : SlidingWindowRateLimiter) (user_id : String)
    (now : ℚ) : SlidingWindowRateLimiter × Bool :=
  let L1 := L.cleanup_window user_id now
  match L1.user_records user_id with
  | none => (L1, true)
  | some w => (L1, decide ((w.length : ℤ) < L1.max_requests))

/-- `SlidingWindowRateLimiter.record_message`. -/
def record_message (L : SlidingWindowRateLimiter) (user_id : String)
    (now : ℚ) : SlidingWindowRateLimiter × Bool :=
  let L1 := L.cleanup_window user_id now
  let L2 := match L1.user_records user_id with
    | none => { L1 with user_records := setStore L1.user_records user_id (some []) }
    | some _ => L1
  let w := (L2.user_records user_id).getD []
  if (w.length : ℤ) < L2.max_requests then
    ({ L2 with user_records := setStore L2.user_records user_id (some (w ++ [now])) },
     true)
  else
    (L2, false)

/-- `SlidingWindowRateLimiter.time_until_next_allowed`; the first component
is the state after the cleanup that starts the call. -/
def time_until_next_allowed (L : SlidingWindowRateLimiter) (user_id : String)
    (now : ℚ) : SlidingWindowRateLimiter × ℚ :=
  let L1 := L.cleanup_window user_id now
  match L1.user_records user_id with
  | none => (L1, 0)
  | some w => (L1, max (L1.window_size - (now - w.headD 0)) 0)

end SlidingWindowRateLimiter

/-- `task_2.py`: class `ThrottlingRateLimiter`.  `user_last_timestamp` maps a
user id to the timestamp of their last recorded message. -/
structure ThrottlingRateLimiter where
  min_interval : ℚ
  user_last_timestamp : String → Option ℚ

namespace ThrottlingRateLimiter

/-- `ThrottlingRateLimiter.__init__`: stores the parameter and an empty
dictionary (the source performs no validation). -/
def init (min_interval : ℚ) : ThrottlingRateLimiter :=
  ⟨min_interval, fun _ => none⟩

/-- `ThrottlingRateLimiter.can_send_message` (a pure read: the source does
not mutate any state here). -/
def can_send_message (T : ThrottlingRateLimiter) (user_id : String)
    (now : ℚ) : Bool :=
  match T.user_last_timestamp user_id with
  | none => true
  | some ts => decide (T.min_interval ≤ now - ts)

/-- `ThrottlingRateLimiter.record_message`. -/
def record_message (T : ThrottlingRateLimiter) (user_id : String)
    (now : ℚ) : ThrottlingRateLimiter × Bool :=
  if T.can_send_message user_id now then
    ({ T with user_last_timestamp := setStore T.user_last_timestamp user_id (some now) },
     true)
  else
    (T, false)

/-- `ThrottlingRateLimiter.time_until_next_allowed` (a pure read). -/
def time_until_next_allowed (T : ThrottlingRateLimiter) (user_id : String)
    (now : ℚ) : ℚ :=
  match T.user_last_timestamp user_id with
  | none => 0
  | some ts => max (T.min_interval - (now - ts)) 0

end ThrottlingRateLimiter

/-- The three public operations of the sliding-window limiter, for
reasoning about call sequences. -/
inductive Op where
  | can_send : Op
  | record : Op
  | time_next : Op
deriving DecidableEq

/-- The state transition of one sliding-window operation. -/
def stepOp (L : SlidingWindowRateLimiter) (u : String) : Op → ℚ → SlidingWindowRateLimiter
  | Op.can_send, t => (L.can_send_message u t).1
  | Op.record, t => (L.record_message u t).1
  | Op.time_next, t => (L.time_until_next_allowed u t).1

/-- Run a sequence of timestamped operations for one identity. -/
def runOps (L : SlidingWindowRateLimiter) (u : String) :
    List (Op × ℚ) → SlidingWindowRateLimiter
  | [] => L
  | (o, t) :: rest => runOps (stepOp L u o t) u rest

/-- The timestamps of the `record` calls in a sequence that are admitted
(return `true`). -/
def admittedTimes (L : SlidingWindowRateLimiter) (u : String) :
    List (Op × ℚ) → List ℚ
  | [] => []
  | (o, t) :: rest =>
      (match o with
       | Op.record => if (L.record_message u t).2 then [t] else []
       | _ => []) ++ admittedTimes (stepOp L u o t) u rest

/-- The time of the last operation of a sequence (`tc` if it is empty). -/
def lastTime : ℚ → List (Op × ℚ) → ℚ
  | tc, [] => tc
  | _, p :: rest => lastTime p.2 rest

/-- A deque as an optional store value: the empty deque is represented by
an absent entry. -/
def optOfList (l : List ℚ) : Option (List ℚ) :=
  if l = [] then none else some l

/-- The timestamps of `l` lying in the half-open window `(now - ws, now]`. -/
def windowFilter (ws now : ℚ) (l : List ℚ) : List ℚ :=
  l.filter (fun t => decide (now - ws < t) && decide (t ≤ now))

/-- The identity's deque right after the cleanup that starts an operation
at time `t` (empty if the identity is then absent). -/
def postClean (L : SlidingWindowRateLimiter) (u : String) (t : ℚ) : List ℚ :=
  ((L.cleanup_window u t).user_records u).getD []

/-! ### Basic store lemmas -/

theorem setStore_self {α : Type} (f : String → Option α) (k : String)
    (v : Option α) : setStore f k v k = v := by
  simp [setStore]

theorem setStore_ne {α : Type} (f : String → Option α) (k : String)
    (v : Option α) {x : String} (h : x ≠ k) : setStore f k v x = f x := by
  simp [setStore, h]

theorem optOfList_eq_none {l : List ℚ} : optOfList l = none ↔ l = [] := by
  unfold optOfList
  split <;> simp_all

theorem optOfList_ne_nil {l : List ℚ} (h : l ≠ []) : optOfList l = some l := by
  simp [optOfList, h]

theorem optOfList_ne_some_nil (l : List ℚ) : optOfList l ≠ some [] := by
  unfold optOfList
  split <;> simp_all

theorem optOfList_eq_some {l m : List ℚ} (h : optOfList l = some m) : l = m := by
  unfold optOfList at h
  split at h <;> simp_all

/-! ### Cleanup lemmas -/

namespace SlidingWindowRateLimiter

theorem cleanupDeque_eq_filter (ws now : ℚ) {w : List ℚ}
    (hs : List.Sorted (· ≤ ·) w) :
    cleanupDeque ws now w = w.filter (fun t => decide (now - t < ws)) := by
  induction w with
  | nil => rfl
  | cons t rest ih =>
      rw [List.sorted_cons] at hs
      by_cases h : ws ≤ now - t
      · rw [cleanupDeque, if_pos h, ih hs.2, List.filter_cons]
        simp [not_lt.mpr h]
      · rw [cleanupDeque, if_neg h, List.filter_cons]
        have hfresh : decide (now - t < ws) = true := decide_eq_true (not_le.mp h)
        rw [hfresh, if_pos rfl]
        have : List.filter (fun t => decide (now - t < ws)) rest = rest := by
          rw [List.filter_eq_self]
          intro a ha
          have hta := hs.1 a ha
          have hlt : now - t < ws := not_le.mp h
          exact decide_eq_true (by linarith)
        rw [this]

theorem cleanupDeque_head_fresh (ws now : ℚ) :
    ∀ (w : List ℚ) (x : ℚ) (xs : List ℚ),
      cleanupDeque ws now w = x :: xs → now - x < ws := by
  intro w
  induction w with
  | nil => intro x xs h; simp [cleanupDeque] at h
  | cons t rest ih =>
      intro x xs h
      rw [cleanupDeque] at h
      by_cases hc : ws ≤ now - t
      · rw [if_pos hc] at h
        exact ih x xs h
      · rw [if_neg hc] at h
        cases h
        exact not_le.mp hc

theorem cleanupDeque_fresh_head (ws now x : ℚ) (xs : List ℚ)
    (h : now - x < ws) : cleanupDeque ws now (x :: xs) = x :: xs := by
  rw [cleanupDeque, if_neg (not_le.mpr h)]

theorem cleanup_window_absent {L : SlidingWindowRateLimiter} {u : String}
    (now : ℚ) (h : L.user_records u = none) : L.cleanup_window u now = L := by
  unfold cleanup_window
  rw [h]

theorem cleanup_window_lookup_some {L : SlidingWindowRateLimiter} {u : String}
    {w : List ℚ} (now : ℚ) (h : L.user_records u = some w) :
    (L.cleanup_window u now).user_records u =
      optOfList (cleanupDeque L.window_size now w) := by
  simp only [cleanup_window, h]
  by_cases he : cleanupDeque L.window_size now w = []
  · rw [if_pos he, he]
    show setStore L.user_records u none u = optOfList []
    rw [setStore_self, optOfList_eq_none.mpr rfl]
  · rw [if_neg he]
    show setStore L.user_records u (some (cleanupDeque L.window_size now w)) u =
      optOfList (cleanupDeque L.window_size now w)
    rw [setStore_self, optOfList_ne_nil he]

theorem cleanup_window_window_size (L : SlidingWindowRateLimiter) (u : String)
    (now : ℚ) : (L.cleanup_window u now).window_size = L.window_size := by
  unfold cleanup_window
  split
  · rfl
  · dsimp only
    split <;> rfl

theorem cleanup_window_max_requests (L : SlidingWindowRateLimiter) (u : String)
    (now : ℚ) : (L.cleanup_window u now).max_requests = L.max_requests := by
  unfold cleanup_window
  split
  · rfl
  · dsimp only
    split <;> rfl

theorem cleanup_window_frame (L : SlidingWindowRateLimiter) (u : String)
    (now : ℚ) {v : String} (hvu : v ≠ u) :
    (L.cleanup_window u now).user_records v = L.user_records v := by
  unfold cleanup_window
  split
  · rfl
  · dsimp only
    split <;> exact setStore_ne _ _ _ hvu

theorem cleanup_window_ne_some_nil (L : SlidingWindowRateLimiter) (u : String)
    (now : ℚ) : (L.cleanup_window u now).user_records u ≠ some [] := by
  cases h : L.user_records u with
  | none => rw [cleanup_window_absent now h, h]; simp
  | some w => rw [cleanup_window_lookup_some now h]; exact optOfList_ne_some_nil _

end SlidingWindowRateLimiter

/-! ### Operation-level lemmas for the sliding-window limiter -/

namespace SlidingWindowRateLimiter

theorem can_send_message_fst (L : SlidingWindowRateLimiter) (u : String)
    (now : ℚ) : (L.can_send_message u now).1 = L.cleanup_window u now := by
  unfold can_send_message
  dsimp only
  split <;> rfl

theorem time_until_next_allowed_fst (L : SlidingWindowRateLimiter) (u : String)
    (now : ℚ) : (L.time_until_next_allowed u now).1 = L.cleanup_window u now := by
  unfold time_until_next_allowed
  dsimp only
  split <;> rfl

theorem time_until_next_allowed_absent {L : SlidingWindowRateLimiter}
    {u : String} {now : ℚ}
    (h : (L.cleanup_window u now).user_records u = none) :
    (L.time_until_next_allowed u now).2 = 0 := by
  simp only [time_until_next_allowed, h]

theorem time_until_next_allowed_present {L : SlidingWindowRateLimiter}
    {u : String} {now : ℚ} {w : List ℚ}
    (h : (L.cleanup_window u now).user_records u = some w) :
    (L.time_until_next_allowed u now).2 =
      max (L.window_size - (now - w.headD 0)) 0 := by
  simp only [time_until_next_allowed, h]
  rw [cleanup_window_window_size]

theorem can_send_message_absent {L : SlidingWindowRateLimiter}
    {u : String} {now : ℚ}
    (h : (L.cleanup_window u now).user_records u = none) :
    (L.can_send_message u now).2 = true := by
  simp only [can_send_message, h]

theorem can_send_message_present {L : SlidingWindowRateLimiter}
    {u : String} {now : ℚ} {w : List ℚ}
    (h : (L.cleanup_window u now).user_records u = some w) :
    (L.can_send_message u now).2 = decide ((w.length : ℤ) < L.max_requests) := by
  simp only [can_send_message, h]
  rw [cleanup_window_max_requests]

theorem record_message_absent_pos {L : SlidingWindowRateLimiter}
    {u : String} {now : ℚ}
    (h : (L.cleanup_window u now).user_records u = none)
    (hpos : 0 < L.max_requests) :
    (L.record_message u now).1.user_records u = some [now] ∧
      (L.record_message u now).2 = true := by
  have hmr := cleanup_window_max_requests L u now
  simp only [record_message, h]
  rw [setStore_self]
  simp only [Option.getD_some, List.length_nil, Nat.cast_zero, hmr]
  rw [if_pos hpos]
  exact ⟨by simp [setStore_self], rfl⟩

theorem record_message_absent_nonpos {L : SlidingWindowRateLimiter}
    {u : String} {now : ℚ}
    (h : (L.cleanup_window u now).user_records u = none)
    (hnp : L.max_requests ≤ 0) :
    (L.record_message u now).1.user_records u = some [] ∧
      (L.record_message u now).2 = false := by
  have hmr := cleanup_window_max_requests L u now
  simp only [record_message, h]
  rw [setStore_self]
  simp only [Option.getD_some, List.length_nil, Nat.cast_zero, hmr]
  rw [if_neg (not_lt.mpr hnp)]
  exact ⟨by simp [setStore_self], rfl⟩

theorem record_message_present_lt {L : SlidingWindowRateLimiter}
    {u : String} {now : ℚ} {w : List ℚ}
    (h : (L.cleanup_window u now).user_records u = some w)
    (hlt : (w.length : ℤ) < L.max_requests) :
    (L.record_message u now).1.user_records u = some (w ++ [now]) ∧
      (L.record_message u now).2 = true := by
  have hmr := cleanup_window_max_requests L u now
  simp only [record_message, h]
  simp only [Option.getD_some, hmr]
  rw [if_pos hlt]
  exact ⟨by simp [setStore_self], rfl⟩

theorem record_message_present_ge {L : SlidingWindowRateLimiter}
    {u : String} {now : ℚ} {w : List ℚ}
    (h : (L.cleanup_window u now).user_records u = some w)
    (hge : L.max_requests ≤ (w.length : ℤ)) :
    (L.record_message u now) = (L.cleanup_window u now, false) := by
  have hmr := cleanup_window_max_requests L u now
  simp only [record_message, h]
  simp only [Option.getD_some, hmr]
  rw [if_neg (not_lt.mpr hge)]

theorem record_message_window_size (L : SlidingWindowRateLimiter) (u : String)
    (now : ℚ) :
    (L.record_message u now).1.window_size = L.window_size := by
  unfold record_message
  dsimp only
  split
  · split <;> rw [cleanup_window_window_size]
  · split <;> rw [cleanup_window_window_size]

theorem record_message_max_requests (L : SlidingWindowRateLimiter) (u : String)
    (now : ℚ) :
    (L.record_message u now).1.max_requests = L.max_requests := by
  unfold record_message
  dsimp only
  split
  · split <;> rw [cleanup_window_max_requests]
  · split <;> rw [cleanup_window_max_requests]

theorem record_message_frame (L : SlidingWindowRateLimiter) (u : String)
    (now : ℚ) {v : String} (hvu : v ≠ u) :
    (L.record_message u now).1.user_records v = L.user_records v := by
  have hcw := cleanup_window_frame L u now hvu
  unfold record_message
  dsimp only
  split
  · split
    · simp [setStore_ne _ _ _ hvu, hcw]
    · simp [setStore_ne _ _ _ hvu, hcw]
  · split
    · simp [setStore_ne _ _ _ hvu, hcw]
    · exact hcw

end SlidingWindowRateLimiter

/-! ### stepOp preservation lemmas -/

theorem stepOp_window_size (L : SlidingWindowRateLimiter) (u : String)
    (o : Op) (t : ℚ) : (stepOp L u o t).window_size = L.window_size := by
  cases o with
  | can_send =>
      rw [stepOp, SlidingWindowRateLimiter.can_send_message_fst]
      exact SlidingWindowRateLimiter.cleanup_window_window_size L u t
  | record => exact SlidingWindowRateLimiter.record_message_window_size L u t
  | time_next =>
      rw [stepOp, SlidingWindowRateLimiter.time_until_next_allowed_fst]
      exact SlidingWindowRateLimiter.cleanup_window_window_size L u t

theorem stepOp_max_requests (L : SlidingWindowRateLimiter) (u : String)
    (o : Op) (t : ℚ) : (stepOp L u o t).max_requests = L.max_requests := by
  cases o with
  | can_send =>
      rw [stepOp, SlidingWindowRateLimiter.can_send_message_fst]
      exact SlidingWindowRateLimiter.cleanup_window_max_requests L u t
  | record => exact SlidingWindowRateLimiter.record_message_max_requests L u t
  | time_next =>
      rw [stepOp, SlidingWindowRateLimiter.time_until_next_allowed_fst]
      exact SlidingWindowRateLimiter.cleanup_window_max_requests L u t

theorem stepOp_frame (L : SlidingWindowRateLimiter) (u : String)
    (o : Op) (t : ℚ) {v : String} (hvu : v ≠ u) :
    (stepOp L u o t).user_records v = L.user_records v := by
  cases o with
  | can_send =>
      rw [stepOp, SlidingWindowRateLimiter.can_send_message_fst]
      exact SlidingWindowRateLimiter.cleanup_window_frame L u t hvu
  | record => exact SlidingWindowRateLimiter.record_message_frame L u t hvu
  | time_next =>
      rw [stepOp, SlidingWindowRateLimiter.time_until_next_allowed_fst]
      exact SlidingWindowRateLimiter.cleanup_window_frame L u t hvu

/-! ### Operation-level lemmas for the throttling limiter -/

namespace ThrottlingRateLimiter

theorem throttling_can_send_absent {T : ThrottlingRateLimiter} {u : String}
    (now : ℚ) (h : T.user_last_timestamp u = none) :
    T.can_send_message u now = true := by
  simp only [can_send_message, h]

theorem throttling_can_send_present {T : ThrottlingRateLimiter} {u : String}
    {ts : ℚ} (now : ℚ) (h : T.user_last_timestamp u = some ts) :
    T.can_send_message u now = decide (T.min_interval ≤ now - ts) := by
  simp only [can_send_message, h]

theorem record_message_of_can_send {T : ThrottlingRateLimiter} {u : String}
    {now : ℚ} (h : T.can_send_message u now = true) :
    (T.record_message u now).1.user_last_timestamp u = some now ∧
      (T.record_message u now).2 = true := by
  unfold record_message
  rw [if_pos h]
  exact ⟨by simp [setStore_self], rfl⟩

theorem record_message_of_not_can_send {T : ThrottlingRateLimiter} {u : String}
    {now : ℚ} (h : T.can_send_message u now = false) :
    (T.record_message u now) = (T, false) := by
  unfold record_message
  rw [if_neg (by simp [h])]

theorem record_message_snd (T : ThrottlingRateLimiter) (u : String) (now : ℚ) :
    (T.record_message u now).2 = T.can_send_message u now := by
  unfold record_message
  split <;> simp_all

theorem throttling_record_frame (T : ThrottlingRateLimiter) (u : String)
    (now : ℚ) {v : String} (hvu : v ≠ u) :
    (T.record_message u now).1.user_last_timestamp v = T.user_last_timestamp v := by
  unfold record_message
  split
  · exact setStore_ne _ _ _ hvu
  · rfl

theorem record_message_min_interval (T : ThrottlingRateLimiter) (u : String)
    (now : ℚ) : (T.record_message u now).1.min_interval = T.min_interval := by
  unfold record_message
  split <;> rfl

theorem throttling_time_until_absent {T : ThrottlingRateLimiter} {u : String}
    (now : ℚ) (h : T.user_last_timestamp u = none) :
    T.time_until_next_allowed u now = 0 := by
  simp only [time_until_next_allowed, h]

theorem throttling_time_until_present {T : ThrottlingRateLimiter} {u : String}
    {ts : ℚ} (now : ℚ) (h : T.user_last_timestamp u = some ts) :
    T.time_until_next_allowed u now = max (T.min_interval - (now - ts)) 0 := by
  simp only [time_until_next_allowed, h]

end ThrottlingRateLimiter

/-! ### Window-filter lemmas -/

theorem windowFilter_sorted {l : List ℚ} (ws now : ℚ)
    (h : List.Sorted (· ≤ ·) l) :
    List.Sorted (· ≤ ·) (windowFilter ws now l) :=
  List.Pairwise.filter _ h

theorem windowFilter_eq_cleanup_filter {l : List ℚ} {ws now : ℚ}
    (hb : ∀ t ∈ l, t ≤ now) :
    windowFilter ws now l = l.filter (fun t => decide (now - t < ws)) := by
  apply List.filter_congr
  intro x hx
  have hxn := hb x hx
  have : (now - ws < x) ↔ (now - x < ws) := sub_lt_comm
  by_cases hc : now - x < ws
  · simp [hc, this.mpr hc, hxn]
  · simp [hc, mt this.mp hc]

theorem windowFilter_shrink {l : List ℚ} {ws tc t : ℚ} (hct : tc ≤ t)
    (hb : ∀ x ∈ l, x ≤ tc) :
    windowFilter ws t (windowFilter ws tc l) = windowFilter ws t l := by
  unfold windowFilter
  rw [List.filter_filter]
  apply List.filter_congr
  intro x hx
  have h1 : x ≤ tc := hb x hx
  by_cases h2 : t - ws < x
  · by_cases h3 : x ≤ t
    · have h4 : tc - ws < x := by linarith
      simp [h2, h3, h4, h1]
    · simp [h3]
  · simp [h2]

theorem windowFilter_mem_le {l : List ℚ} {ws now x : ℚ}
    (hb : ∀ t ∈ l, t ≤ now) (hx : x ∈ windowFilter ws now l) : x ≤ now :=
  hb x (List.mem_filter.mp hx).1

theorem windowFilter_singleton_self {ws : ℚ} (hws : 0 < ws) (t : ℚ) :
    windowFilter ws t [t] = [t] := by
  unfold windowFilter
  simp [List.filter_cons, sub_lt_self t hws]

theorem windowFilter_length_mono {l : List ℚ} {ws tc t : ℚ} (hct : tc ≤ t)
    (hb : ∀ x ∈ l, x ≤ tc) :
    (windowFilter ws t l).length ≤ (windowFilter ws tc l).length := by
  rw [← @windowFilter_shrink l ws tc t hct hb]
  exact List.length_filter_le _ _

theorem sorted_append_singleton {l : List ℚ} {t : ℚ}
    (hs : List.Sorted (· ≤ ·) l) (hb : ∀ x ∈ l, x ≤ t) :
    List.Sorted (· ≤ ·) (l ++ [t]) := by
  induction l with
  | nil => simp
  | cons a l ih =>
      rw [List.cons_append, List.sorted_cons]
      rw [List.sorted_cons] at hs
      refine ⟨?_, ih hs.2 (fun x hx => hb x (List.mem_cons_of_mem a hx))⟩
      intro b hbmem
      rcases List.mem_append.mp hbmem with hbl | hbt
      · exact hs.1 b hbl
      · rw [List.mem_singleton.mp hbt]
        exact hb a (List.mem_cons_self a l)

/-- The net effect of `_cleanup_window` at time `t` on an identity whose
stored deque is the in-window part, at an earlier time `tc`, of a sorted
list `adm` of past timestamps. -/
theorem cleanup_window_windowFilter {L : SlidingWindowRateLimiter}
    {u : String} {ws tc t : ℚ} {adm : List ℚ}
    (hwseq : L.window_size = ws)
    (hlk : L.user_records u = optOfList (windowFilter ws tc adm))
    (hs : List.Sorted (· ≤ ·) adm)
    (hb : ∀ x ∈ adm, x ≤ tc) (hct : tc ≤ t) :
    (L.cleanup_window u t).user_records u =
      optOfList (windowFilter ws t adm) := by
  have hsort := windowFilter_sorted ws tc hs
  by_cases hnil : windowFilter ws tc adm = []
  · have hnone : L.user_records u = none := by
      rw [hlk, hnil]; rfl
    rw [SlidingWindowRateLimiter.cleanup_window_absent t hnone, hnone]
    have ht : windowFilter ws t adm = [] := by
      rw [← @windowFilter_shrink adm ws tc t hct hb, hnil]; rfl
    rw [ht]; rfl
  · have hlk' : L.user_records u = some (windowFilter ws tc adm) := by
      rw [hlk, optOfList_ne_nil hnil]
    rw [SlidingWindowRateLimiter.cleanup_window_lookup_some t hlk', hwseq,
      SlidingWindowRateLimiter.cleanupDeque_eq_filter ws t hsort]
    have hb' : ∀ x ∈ windowFilter ws tc adm, x ≤ t := fun x hx =>
      le_trans (windowFilter_mem_le hb hx) hct
    rw [← windowFilter_eq_cleanup_filter hb', windowFilter_shrink hct hb]

theorem windowFilter_append_self {ws : ℚ} (hws : 0 < ws) (t : ℚ) (l : List ℚ) :
    windowFilter ws t (l ++ [t]) = windowFilter ws t l ++ [t] := by
  unfold windowFilter
  rw [List.filter_append]
  congr 1
  simp [List.filter_cons, sub_lt_self t hws]

/-- Invariant of the sliding-window limiter along a sequence of operations
on one identity: the stored deque is always exactly the in-window part of
the admitted record timestamps, and its length never exceeds
`max_requests`. -/
theorem runOps_invariant (ws : ℚ) (mr : ℤ) (u : String)
    (hws : 0 < ws) (hmr : 1 ≤ mr) :
    ∀ (tr : List (Op × ℚ)) (L : SlidingWindowRateLimiter) (adm : List ℚ) (tc : ℚ),
      L.window_size = ws → L.max_requests = mr →
      L.user_records u = optOfList (windowFilter ws tc adm) →
      List.Sorted (· ≤ ·) adm →
      (∀ x ∈ adm, x ≤ tc) →
      ((windowFilter ws tc adm).length : ℤ) ≤ mr →
      List.Chain' (· ≤ ·) (tc :: tr.map Prod.snd) →
      (runOps L u tr).window_size = ws ∧
      (runOps L u tr).max_requests = mr ∧
      (runOps L u tr).user_records u =
        optOfList (windowFilter ws (lastTime tc tr) (adm ++ admittedTimes L u tr)) ∧
      List.Sorted (· ≤ ·) (adm ++ admittedTimes L u tr) ∧
      (∀ x ∈ adm ++ admittedTimes L u tr, x ≤ lastTime tc tr) ∧
      ((windowFilter ws (lastTime tc tr) (adm ++ admittedTimes L u tr)).length : ℤ) ≤ mr := by
  intro tr
  induction tr with
  | nil =>
      intro L adm tc h1 h2 h3 h4 h5 h6 _
      refine ⟨h1, h2, ?_, ?_, ?_, ?_⟩
      · simpa [runOps, admittedTimes, lastTime] using h3
      · simpa [admittedTimes] using h4
      · simpa [admittedTimes, lastTime] using h5
      · simpa [admittedTimes, lastTime] using h6
  | cons p rest ih =>
      obtain ⟨o, t⟩ := p
      intro L adm tc h1 h2 h3 h4 h5 h6 hchain
      have hchain' : List.Chain' (· ≤ ·) (tc :: t :: rest.map Prod.snd) := by
        simpa using hchain
      have hct : tc ≤ t := (List.chain'_cons.mp hchain').1
      have hchainrest : List.Chain' (· ≤ ·) (t :: rest.map Prod.snd) :=
        (List.chain'_cons.mp hchain').2
      have hbt : ∀ x ∈ adm, x ≤ t := fun x hx => le_trans (h5 x hx) hct
      have hC : (L.cleanup_window u t).user_records u =
          optOfList (windowFilter ws t adm) :=
        cleanup_window_windowFilter h1 h3 h4 h5 hct
      have hlenC : ((windowFilter ws t adm).length : ℤ) ≤ mr :=
        le_trans (Int.ofNat_le.mpr (windowFilter_length_mono hct h5)) h6
      have hCws : (L.cleanup_window u t).window_size = ws := by
        rw [SlidingWindowRateLimiter.cleanup_window_window_size]; exact h1
      have hCmr : (L.cleanup_window u t).max_requests = mr := by
        rw [SlidingWindowRateLimiter.cleanup_window_max_requests]; exact h2
      cases o with
      | can_send =>
          have hstep : stepOp L u Op.can_send t = L.cleanup_window u t :=
            SlidingWindowRateLimiter.can_send_message_fst L u t
          have := ih (L.cleanup_window u t) adm t hCws hCmr hC h4 hbt hlenC hchainrest
          simpa [runOps, admittedTimes, lastTime, hstep] using this
      | time_next =>
          have hstep : stepOp L u Op.time_next t = L.cleanup_window u t :=
            SlidingWindowRateLimiter.time_until_next_allowed_fst L u t
          have := ih (L.cleanup_window u t) adm t hCws hCmr hC h4 hbt hlenC hchainrest
          simpa [runOps, admittedTimes, lastTime, hstep] using this
      | record =>
          have hstep : stepOp L u Op.record t = (L.record_message u t).1 := rfl
          have hmrpos : 0 < L.max_requests := by
            rw [h2]; exact lt_of_lt_of_le zero_lt_one hmr
          have hLws : (L.record_message u t).1.window_size = ws := by
            rw [SlidingWindowRateLimiter.record_message_window_size]; exact h1
          have hLmr : (L.record_message u t).1.max_requests = mr := by
            rw [SlidingWindowRateLimiter.record_message_max_requests]; exact h2
          by_cases hnil : windowFilter ws t adm = []
          · -- after cleanup the identity is absent: the record is admitted
            have hCnone : (L.cleanup_window u t).user_records u = none := by
              rw [hC, hnil]; rfl
            obtain ⟨hlk, hsnd⟩ :=
              SlidingWindowRateLimiter.record_message_absent_pos hCnone hmrpos
            have hadm' : (L.record_message u t).1.user_records u =
                optOfList (windowFilter ws t (adm ++ [t])) := by
              rw [hlk, windowFilter_append_self hws, hnil,
                optOfList_ne_nil (by simp : ([] : List ℚ) ++ [t] ≠ [])]
              simp
            have hsort' : List.Sorted (· ≤ ·) (adm ++ [t]) :=
              sorted_append_singleton h4 hbt
            have hb' : ∀ x ∈ adm ++ [t], x ≤ t := by
              intro x hx
              rcases List.mem_append.mp hx with hxl | hxr
              · exact hbt x hxl
              · rw [List.mem_singleton.mp hxr]
            have hlen' : ((windowFilter ws t (adm ++ [t])).length : ℤ) ≤ mr := by
              rw [windowFilter_append_self hws, hnil]
              simpa using hmr
            have := ih (L.record_message u t).1 (adm ++ [t]) t hLws hLmr hadm'
              hsort' hb' hlen' hchainrest
            simpa [runOps, admittedTimes, lastTime, hstep, hsnd] using this
          · have hCsome : (L.cleanup_window u t).user_records u =
                some (windowFilter ws t adm) := by
              rw [hC, optOfList_ne_nil hnil]
            by_cases hlt : ((windowFilter ws t adm).length : ℤ) < L.max_requests
            · -- under the limit: the record is admitted and appended
              obtain ⟨hlk, hsnd⟩ :=
                SlidingWindowRateLimiter.record_message_present_lt hCsome hlt
              have hadm' : (L.record_message u t).1.user_records u =
                  optOfList (windowFilter ws t (adm ++ [t])) := by
                rw [hlk, windowFilter_append_self hws,
                  optOfList_ne_nil (by simp : windowFilter ws t adm ++ [t] ≠ [])]
              have hsort' : List.Sorted (· ≤ ·) (adm ++ [t]) :=
                sorted_append_singleton h4 hbt
              have hb' : ∀ x ∈ adm ++ [t], x ≤ t := by
                intro x hx
                rcases List.mem_append.mp hx with hxl | hxr
                · exact hbt x hxl
                · rw [List.mem_singleton.mp hxr]
              have hlen' : ((windowFilter ws t (adm ++ [t])).length : ℤ) ≤ mr := by
                rw [windowFilter_append_self hws, List.length_append]
                rw [h2] at hlt
                simp only [List.length_singleton, Nat.cast_add, Nat.cast_one]
                omega
              have := ih (L.record_message u t).1 (adm ++ [t]) t hLws hLmr hadm'
                hsort' hb' hlen' hchainrest
              simpa [runOps, admittedTimes, lastTime, hstep, hsnd] using this
            · -- at the limit: the record is rejected, only cleanup happened
              have hge : L.max_requests ≤ ((windowFilter ws t adm).length : ℤ) :=
                not_lt.mp hlt
              have hrec := SlidingWindowRateLimiter.record_message_present_ge hCsome hge
              have hfst : (L.record_message u t).1 = L.cleanup_window u t := by
                rw [hrec]
              have hsnd : (L.record_message u t).2 = false := by
                rw [hrec]
              have := ih (L.cleanup_window u t) adm t hCws hCmr hC h4 hbt hlenC hchainrest
              simpa [runOps, admittedTimes, lastTime, hstep, hfst, hsnd] using this

/-! ### Characterization of a single record call -/

theorem record_message_true_iff (L : SlidingWindowRateLimiter) (u : String)
    (now : ℚ) :
    (L.record_message u now).2 = true ↔
      ((postClean L u now).length : ℤ) < L.max_requests := by
  cases h : (L.cleanup_window u now).user_records u with
  | none =>
      have hpc : postClean L u now = [] := by rw [postClean, h]; rfl
      rw [hpc]
      by_cases hpos : 0 < L.max_requests
      · obtain ⟨_, hsnd⟩ := SlidingWindowRateLimiter.record_message_absent_pos h hpos
        simpa [hsnd] using hpos
      · obtain ⟨_, hsnd⟩ :=
          SlidingWindowRateLimiter.record_message_absent_nonpos h (not_lt.mp hpos)
        simpa [hsnd] using hpos
  | some w =>
      have hpc : postClean L u now = w := by rw [postClean, h]; rfl
      rw [hpc]
      by_cases hlt : (w.length : ℤ) < L.max_requests
      · obtain ⟨_, hsnd⟩ := SlidingWindowRateLimiter.record_message_present_lt h hlt
        simpa [hsnd] using hlt
      · have hrec :=
          SlidingWindowRateLimiter.record_message_present_ge h (not_lt.mp hlt)
        have : (L.record_message u now).2 = false := by rw [hrec]
        simpa [this] using hlt

theorem record_message_appends (L : SlidingWindowRateLimiter) (u : String)
    (now : ℚ) (htrue : (L.record_message u now).2 = true) :
    (L.record_message u now).1.user_records u =
      some (postClean L u now ++ [now]) := by
  cases h : (L.cleanup_window u now).user_records u with
  | none =>
      have hpc : postClean L u now = [] := by rw [postClean, h]; rfl
      have hpos : 0 < L.max_requests := by
        have := (record_message_true_iff L u now).mp htrue
        rw [hpc] at this
        simpa using this
      obtain ⟨hlk, _⟩ := SlidingWindowRateLimiter.record_message_absent_pos h hpos
      rw [hlk, hpc]
      simp
  | some w =>
      have hpc : postClean L u now = w := by rw [postClean, h]; rfl
      have hlt : (w.length : ℤ) < L.max_requests := by
        have := (record_message_true_iff L u now).mp htrue
        rwa [hpc] at this
      obtain ⟨hlk, _⟩ := SlidingWindowRateLimiter.record_message_present_lt h hlt
      rw [hlk, hpc]

theorem record_message_rejected_no_mutation (L : SlidingWindowRateLimiter)
    (u : String) (now : ℚ) (hmr : 1 ≤ L.max_requests)
    (hfalse : (L.record_message u now).2 = false) :
    (L.record_message u now).1 = L.cleanup_window u now := by
  cases h : (L.cleanup_window u now).user_records u with
  | none =>
      have hpos : 0 < L.max_requests := lt_of_lt_of_le zero_lt_one hmr
      obtain ⟨_, hsnd⟩ := SlidingWindowRateLimiter.record_message_absent_pos h hpos
      rw [hsnd] at hfalse
      exact absurd hfalse (by simp)
  | some w =>
      by_cases hlt : (w.length : ℤ) < L.max_requests
      · obtain ⟨_, hsnd⟩ := SlidingWindowRateLimiter.record_message_present_lt h hlt
        rw [hsnd] at hfalse
        exact absurd hfalse (by simp)
      · have hrec :=
          SlidingWindowRateLimiter.record_message_present_ge h (not_lt.mp hlt)
        rw [hrec]

/-- Claim C1: window containment for the sliding-window limiter.  For every
sequence of operations on one identity, run with a monotone clock from a
freshly constructed limiter with `0 < window_size` and `1 ≤ max_requests`,
the stored timestamps for that identity are exactly the timestamps of the
previously admitted `record_message` calls lying in the half-open interval
`(now - window_size, now]` (where `now` is the time of the last operation),
and their count never exceeds `max_requests`.  Moreover a `record_message`
call returns `true` iff the post-cleanup count is below `max_requests`, in
which case it appends `now`; a rejected call mutates no state beyond the
cleanup. -/
theorem sliding_window_containment
    (ws : ℚ) (mr : ℤ) (u : String) (tr : List (Op × ℚ))
    (L : SlidingWindowRateLimiter) (tn : ℚ)
    (hws : 0 < ws) (hmr : 1 ≤ mr) (hL : 1 ≤ L.max_requests)
    (hchain : List.Chain' (· ≤ ·) (tr.map Prod.snd)) :
    ((runOps (SlidingWindowRateLimiter.init ws mr) u tr).user_records u =
      optOfList (windowFilter ws (lastTime 0 tr)
        (admittedTimes (SlidingWindowRateLimiter.init ws mr) u tr))) ∧
    (((((runOps (SlidingWindowRateLimiter.init ws mr) u tr).user_records u).getD
        []).length : ℤ) ≤ mr) ∧
    ((L.record_message u tn).2 = true ↔
      ((postClean L u tn).length : ℤ) < L.max_requests) ∧
    ((L.record_message u tn).2 = true →
      (L.record_message u tn).1.user_records u =
        some (postClean L u tn ++ [tn])) ∧
    ((L.record_message u tn).2 = false →
      (L.record_message u tn).1 = L.cleanup_window u tn) := by
  refine ⟨?_, ?_, record_message_true_iff L u tn,
    record_message_appends L u tn,
    record_message_rejected_no_mutation L u tn hL⟩ <;>
  · have hmain :
        (runOps (SlidingWindowRateLimiter.init ws mr) u tr).user_records u =
          optOfList (windowFilter ws (lastTime 0 tr)
            (admittedTimes (SlidingWindowRateLimiter.init ws mr) u tr)) ∧
        ((windowFilter ws (lastTime 0 tr)
            (admittedTimes (SlidingWindowRateLimiter.init ws mr) u tr)).length : ℤ)
          ≤ mr := by
      cases tr with
      | nil =>
          constructor
          · rfl
          · simpa using le_trans zero_le_one hmr
      | cons p rest =>
          obtain ⟨o, t⟩ := p
          have hch : List.Chain' (· ≤ ·)
              (t :: ((o, t) :: rest).map Prod.snd) := by
            rw [List.map_cons]
            exact List.chain'_cons.mpr ⟨le_refl t, by simpa using hchain⟩
          have := runOps_invariant ws mr u hws hmr ((o, t) :: rest)
            (SlidingWindowRateLimiter.init ws mr) [] t rfl rfl
            (by rfl) (by simp) (by simp)
            (by simpa using le_trans zero_le_one hmr) hch
          obtain ⟨_, _, hlk, _, _, hlen⟩ := this
          have hlast : lastTime t ((o, t) :: rest) =
              lastTime 0 ((o, t) :: rest) := rfl
          constructor
          · rw [← hlast]
            simpa using hlk
          · rw [← hlast]
            simpa using hlen
    first
      | exact hmain.1
      | · rw [hmain.1]
          by_cases hne : windowFilter ws (lastTime 0 tr)
              (admittedTimes (SlidingWindowRateLimiter.init ws mr) u tr) = []
          · rw [hne]
            simpa using le_trans zero_le_one hmr
          · rw [optOfList_ne_nil hne]
            simpa using hmain.2

/-- Witness for claim C1 at a concrete trace: window 10, limit 1, records
at times 0 and 5. -/
theorem sliding_window_containment_witness :
    ((runOps (SlidingWindowRateLimiter.init 10 1) "u"
        [(Op.record, 0), (Op.record, 5)]).user_records "u" =
      optOfList (windowFilter 10 (lastTime 0 [(Op.record, 0), (Op.record, 5)])
        (admittedTimes (SlidingWindowRateLimiter.init 10 1) "u"
          [(Op.record, 0), (Op.record, 5)]))) ∧
    ((((runOps (SlidingWindowRateLimiter.init 10 1) "u"
        [(Op.record, 0), (Op.record, 5)]).user_records "u").getD
          []).length : ℤ) ≤ 1 ∧
    (((SlidingWindowRateLimiter.init 10 1).record_message "u" 0).2 = true ↔
      ((postClean (SlidingWindowRateLimiter.init 10 1) "u" 0).length : ℤ) <
        (SlidingWindowRateLimiter.init 10 1).max_requests) ∧
    (((SlidingWindowRateLimiter.init 10 1).record_message "u" 0).2 = true →
      ((SlidingWindowRateLimiter.init 10 1).record_message "u" 0).1.user_records "u" =
        some (postClean (SlidingWindowRateLimiter.init 10 1) "u" 0 ++ [0])) ∧
    (((SlidingWindowRateLimiter.init 10 1).record_message "u" 0).2 = false →
      ((SlidingWindowRateLimiter.init 10 1).record_message "u" 0).1 =
        (SlidingWindowRateLimiter.init 10 1).cleanup_window "u" 0) :=
  sliding_window_containment 10 1 "u" [(Op.record, 0), (Op.record, 5)]
    (SlidingWindowRateLimiter.init 10 1) 0 (by norm_num) (by norm_num)
    (le_refl 1) (by norm_num [List.chain'_cons])

/-- Claim C2: the cleanup that starts every operation removes exactly the
stored timestamps whose age at `now` is at least `window_size` — an entry
of age exactly `window_size` is removed, strictly younger entries are kept
(the window is the half-open interval `(now - window_size, now]`) — and the
read-only operations perform exactly this cleanup as their state change. -/
theorem cleanup_half_open_window
    (L : SlidingWindowRateLimiter) (u : String) (now : ℚ) (w : List ℚ)
    (hfind : L.user_records u = some w) (hw : List.Sorted (· ≤ ·) w) :
    ((L.cleanup_window u now).user_records u =
      optOfList (w.filter (fun t => decide (now - t < L.window_size)))) ∧
    ((L.can_send_message u now).1 = L.cleanup_window u now) ∧
    ((L.time_until_next_allowed u now).1 = L.cleanup_window u now) := by
  refine ⟨?_, SlidingWindowRateLimiter.can_send_message_fst L u now,
    SlidingWindowRateLimiter.time_until_next_allowed_fst L u now⟩
  rw [SlidingWindowRateLimiter.cleanup_window_lookup_some now hfind,
    SlidingWindowRateLimiter.cleanupDeque_eq_filter _ now hw]

/-- Witness for claim C2: with window 10 and stored entries at times 0 and
5, a cleanup at time 10 removes the entry of age exactly 10 and keeps the
entry of age 5. -/
theorem cleanup_half_open_window_witness :
    (((SlidingWindowRateLimiter.mk 10 1
        (setStore (fun _ => none) "u" (some [0, 5]))).cleanup_window "u"
          10).user_records "u" =
      optOfList ([0, 5].filter (fun t => decide ((10 : ℚ) - t <
        (SlidingWindowRateLimiter.mk 10 1
          (setStore (fun _ => none) "u" (some [0, 5]))).window_size)))) ∧
    (((SlidingWindowRateLimiter.mk 10 1
        (setStore (fun _ => none) "u" (some [0, 5]))).can_send_message "u" 10).1 =
      (SlidingWindowRateLimiter.mk 10 1
        (setStore (fun _ => none) "u" (some [0, 5]))).cleanup_window "u" 10) ∧
    (((SlidingWindowRateLimiter.mk 10 1
        (setStore (fun _ => none) "u" (some [0, 5]))).time_until_next_allowed "u"
          10).1 =
      (SlidingWindowRateLimiter.mk 10 1
        (setStore (fun _ => none) "u" (some [0, 5]))).cleanup_window "u" 10) :=
  cleanup_half_open_window
    (SlidingWindowRateLimiter.mk 10 1 (setStore (fun _ => none) "u" (some [0, 5])))
    "u" 10 [0, 5] (by simp [setStore]) (by norm_num [List.sorted_cons])

/-- Claim C3: `time_until_next_allowed` returns `0` when after cleanup no
state remains for the identity (in particular for a never-seen identity),
and otherwise `max(0, window_size - (now - oldest_entry))` where the oldest
entry is the first stored timestamp surviving the cleanup; concretely with
window 10 and limit 1, after a sole admitted record at `t = 0` it returns
`5` at `t = 5` (where a record is rejected) and a record succeeds again at
`t = 10.001`. -/
theorem time_until_next_allowed_spec
    (L : SlidingWindowRateLimiter) (u : String) (now : ℚ) (w : List ℚ)
    (hfind : L.user_records u = optOfList w) (hw : List.Sorted (· ≤ ·) w) :
    ((L.time_until_next_allowed u now).2 =
      if w.filter (fun t => decide (now - t < L.window_size)) = [] then 0
      else max (L.window_size -
        (now - (w.filter (fun t =>
          decide (now - t < L.window_size))).headD 0)) 0) ∧
    (((SlidingWindowRateLimiter.init L.window_size
        L.max_requests).time_until_next_allowed u now).2 = 0) ∧
    (((SlidingWindowRateLimiter.init 10 1).record_message "u1" 0).2 = true) ∧
    (((((SlidingWindowRateLimiter.init 10 1).record_message "u1" 0).1).record_message
        "u1" 5).2 = false) ∧
    (((((SlidingWindowRateLimiter.init 10 1).record_message "u1" 0).1).time_until_next_allowed
        "u1" 5).2 = 5) ∧
    ((((((SlidingWindowRateLimiter.init 10 1).record_message "u1" 0).1).record_message
        "u1" 5).1.record_message "u1" (10001/1000)).2 = true) := by
  refine ⟨?_, ?_, ?_, ?_, ?_, ?_⟩
  · by_cases hnil : w = []
    · have hnone : L.user_records u = none := by rw [hfind, hnil]; rfl
      have hcn : (L.cleanup_window u now).user_records u = none := by
        rw [SlidingWindowRateLimiter.cleanup_window_absent now hnone]
        exact hnone
      rw [SlidingWindowRateLimiter.time_until_next_allowed_absent hcn, hnil]
      simp
    · have hsome : L.user_records u = some w := by
        rw [hfind, optOfList_ne_nil hnil]
      have hck : (L.cleanup_window u now).user_records u =
          optOfList (w.filter (fun t => decide (now - t < L.window_size))) := by
        rw [SlidingWindowRateLimiter.cleanup_window_lookup_some now hsome,
          SlidingWindowRateLimiter.cleanupDeque_eq_filter _ now hw]
      by_cases hfnil : w.filter (fun t => decide (now - t < L.window_size)) = []
      · have : (L.cleanup_window u now).user_records u = none := by
          rw [hck, hfnil]; rfl
        rw [SlidingWindowRateLimiter.time_until_next_allowed_absent this, if_pos hfnil]
      · have : (L.cleanup_window u now).user_records u =
            some (w.filter (fun t => decide (now - t < L.window_size))) := by
          rw [hck, optOfList_ne_nil hfnil]
        rw [SlidingWindowRateLimiter.time_until_next_allowed_present this,
          if_neg hfnil]
  · have hnone : (SlidingWindowRateLimiter.init L.window_size
        L.max_requests).user_records u = none := rfl
    have hcn : ((SlidingWindowRateLimiter.init L.window_size
        L.max_requests).cleanup_window u now).user_records u = none := by
      rw [SlidingWindowRateLimiter.cleanup_window_absent now hnone]
      exact hnone
    exact SlidingWindowRateLimiter.time_until_next_allowed_absent hcn
  · norm_num [SlidingWindowRateLimiter.init, SlidingWindowRateLimiter.record_message,
      SlidingWindowRateLimiter.cleanup_window, SlidingWindowRateLimiter.cleanupDeque,
      setStore]
  · norm_num [SlidingWindowRateLimiter.init, SlidingWindowRateLimiter.record_message,
      SlidingWindowRateLimiter.cleanup_window, SlidingWindowRateLimiter.cleanupDeque,
      setStore]
  · norm_num [SlidingWindowRateLimiter.init, SlidingWindowRateLimiter.record_message,
      SlidingWindowRateLimiter.time_until_next_allowed,
      SlidingWindowRateLimiter.cleanup_window, SlidingWindowRateLimiter.cleanupDeque,
      setStore]
  · norm_num [SlidingWindowRateLimiter.init, SlidingWindowRateLimiter.record_message,
      SlidingWindowRateLimiter.cleanup_window, SlidingWindowRateLimiter.cleanupDeque,
      setStore]

/-- Witness for claim C3: a limiter holding a sole entry at time 0,
queried at time 5 with window 10. -/
theorem time_until_next_allowed_spec_witness :
    (((SlidingWindowRateLimiter.mk 10 1
        (setStore (fun _ => none) "u" (some [0]))).time_until_next_allowed "u" 5).2 =
      if [0].filter (fun t => decide ((5 : ℚ) - t <
          (SlidingWindowRateLimiter.mk 10 1
            (setStore (fun _ => none) "u" (some [0]))).window_size)) = [] then 0
      else max ((SlidingWindowRateLimiter.mk 10 1
          (setStore (fun _ => none) "u" (some [0]))).window_size -
        (5 - ([0].filter (fun t => decide ((5 : ℚ) - t <
          (SlidingWindowRateLimiter.mk 10 1
            (setStore (fun _ => none) "u" (some [0]))).window_size))).headD 0)) 0) ∧
    (((SlidingWindowRateLimiter.init
        (SlidingWindowRateLimiter.mk 10 1
          (setStore (fun _ => none) "u" (some [0]))).window_size
        (SlidingWindowRateLimiter.mk 10 1
          (setStore (fun _ => none) "u" (some [0]))).max_requests).time_until_next_allowed
        "u" 5).2 = 0) ∧
    (((SlidingWindowRateLimiter.init 10 1).record_message "u1" 0).2 = true) ∧
    (((((SlidingWindowRateLimiter.init 10 1).record_message "u1" 0).1).record_message
        "u1" 5).2 = false) ∧
    (((((SlidingWindowRateLimiter.init 10 1).record_message "u1" 0).1).time_until_next_allowed
        "u1" 5).2 = 5) ∧
    ((((((SlidingWindowRateLimiter.init 10 1).record_message "u1" 0).1).record_message
        "u1" 5).1.record_message "u1" (10001/1000)).2 = true) :=
  time_until_next_allowed_spec
    (SlidingWindowRateLimiter.mk 10 1 (setStore (fun _ => none) "u" (some [0])))
    "u" 5 [0] (by simp [setStore, optOfList]) (by simp)

/-- Claim C4: the fixed-interval limiter admits iff the identity has no
recorded timestamp or `now - last_timestamp ≥ min_interval` (the boundary
instant is admitted); `record_message` admits and overwrites the stored
timestamp exactly when `can_send_message` is true and otherwise mutates
nothing; concretely with `min_interval = 10`, after an admitted record at
`t = 0`, admission is denied at `t = 9.999` and granted at `t = 10`, where
a record succeeds. -/
theorem throttling_fixed_interval_spec
    (T : ThrottlingRateLimiter) (u : String) (now ts : ℚ) :
    ((T.user_last_timestamp u = none → T.can_send_message u now = true)) ∧
    ((T.user_last_timestamp u = some ts →
      (T.can_send_message u now = true ↔ T.min_interval ≤ now - ts))) ∧
    ((T.record_message u now).2 = T.can_send_message u now) ∧
    ((T.record_message u now).2 = true →
      (T.record_message u now).1.user_last_timestamp u = some now) ∧
    ((T.record_message u now).2 = false → (T.record_message u now).1 = T) ∧
    (((ThrottlingRateLimiter.init 10).record_message "u2" 0).2 = true) ∧
    ((((ThrottlingRateLimiter.init 10).record_message "u2" 0).1).can_send_message
      "u2" (9999/1000) = false) ∧
    ((((ThrottlingRateLimiter.init 10).record_message "u2" 0).1).can_send_message
      "u2" 10 = true) ∧
    (((((ThrottlingRateLimiter.init 10).record_message "u2" 0).1).record_message
      "u2" 10).2 = true) := by
  refine ⟨?_, ?_, ThrottlingRateLimiter.record_message_snd T u now, ?_, ?_,
    ?_, ?_, ?_, ?_⟩
  · intro h
    exact ThrottlingRateLimiter.throttling_can_send_absent now h
  · intro h
    rw [ThrottlingRateLimiter.throttling_can_send_present now h]
    simp
  · intro h
    rw [ThrottlingRateLimiter.record_message_snd] at h
    exact (ThrottlingRateLimiter.record_message_of_can_send h).1
  · intro h
    rw [ThrottlingRateLimiter.record_message_snd] at h
    exact congrArg Prod.fst (ThrottlingRateLimiter.record_message_of_not_can_send h)
  · norm_num [ThrottlingRateLimiter.init, ThrottlingRateLimiter.record_message,
      ThrottlingRateLimiter.can_send_message, setStore]
  · norm_num [ThrottlingRateLimiter.init, ThrottlingRateLimiter.record_message,
      ThrottlingRateLimiter.can_send_message, setStore]
  · norm_num [ThrottlingRateLimiter.init, ThrottlingRateLimiter.record_message,
      ThrottlingRateLimiter.can_send_message, setStore]
  · norm_num [ThrottlingRateLimiter.init, ThrottlingRateLimiter.record_message,
      ThrottlingRateLimiter.can_send_message, setStore]

/-- Witness for claim C4: a limiter with a recorded timestamp 0 for "u",
queried at time 3 with interval 10. -/
theorem throttling_fixed_interval_spec_witness :
    (((ThrottlingRateLimiter.mk 10
        (setStore (fun _ => none) "u" (some 0))).user_last_timestamp "u" = none →
      (ThrottlingRateLimiter.mk 10
        (setStore (fun _ => none) "u" (some 0))).can_send_message "u" 3 = true)) ∧
    (((ThrottlingRateLimiter.mk 10
        (setStore (fun _ => none) "u" (some 0))).user_last_timestamp "u" = some 0 →
      ((ThrottlingRateLimiter.mk 10
          (setStore (fun _ => none) "u" (some 0))).can_send_message "u" 3 = true ↔
        (ThrottlingRateLimiter.mk 10
          (setStore (fun _ => none) "u" (some 0))).min_interval ≤ 3 - 0))) ∧
    (((ThrottlingRateLimiter.mk 10
        (setStore (fun _ => none) "u" (some 0))).record_message "u" 3).2 =
      (ThrottlingRateLimiter.mk 10
        (setStore (fun _ => none) "u" (some 0))).can_send_message "u" 3) ∧
    (((ThrottlingRateLimiter.mk 10
        (setStore (fun _ => none) "u" (some 0))).record_message "u" 3).2 = true →
      ((ThrottlingRateLimiter.mk 10
        (setStore (fun _ => none) "u" (some 0))).record_message "u"
          3).1.user_last_timestamp "u" = some 3) ∧
    (((ThrottlingRateLimiter.mk 10
        (setStore (fun _ => none) "u" (some 0))).record_message "u" 3).2 = false →
      ((ThrottlingRateLimiter.mk 10
          (setStore (fun _ => none) "u" (some 0))).record_message "u" 3).1 =
        ThrottlingRateLimiter.mk 10 (setStore (fun _ => none) "u" (some 0))) ∧
    (((ThrottlingRateLimiter.init 10).record_message "u2" 0).2 = true) ∧
    ((((ThrottlingRateLimiter.init 10).record_message "u2" 0).1).can_send_message
      "u2" (9999/1000) = false) ∧
    ((((ThrottlingRateLimiter.init 10).record_message "u2" 0).1).can_send_message
      "u2" 10 = true) ∧
    (((((ThrottlingRateLimiter.init 10).record_message "u2" 0).1).record_message
      "u2" 10).2 = true) :=
  throttling_fixed_interval_spec
    (ThrottlingRateLimiter.mk 10 (setStore (fun _ => none) "u" (some 0))) "u" 3 0

/-- Claim C5 counterexample: the constructors perform no validation.
Constructing the sliding-window limiter with `window_size = 0` and
`max_requests = 0`, or the throttling limiter with `min_interval = -1`,
succeeds and stores the invalid values; the anomaly only surfaces in later
operations (every record is rejected, resp. every record is admitted). -/
theorem no_construction_validation :
    ((SlidingWindowRateLimiter.init 0 0).window_size = 0) ∧
    ((SlidingWindowRateLimiter.init 0 0).max_requests = 0) ∧
    (((SlidingWindowRateLimiter.init 0 0).record_message "u" 0).2 = false) ∧
    ((((SlidingWindowRateLimiter.init 0 0).record_message "u" 0).1).user_records
      "u" = some []) ∧
    ((ThrottlingRateLimiter.init (-1)).min_interval = -1) ∧
    (((ThrottlingRateLimiter.init (-1)).record_message "u" 0).2 = true) := by
  refine ⟨rfl, rfl, ?_, ?_, rfl, ?_⟩ <;>
    norm_num [SlidingWindowRateLimiter.init, SlidingWindowRateLimiter.record_message,
      SlidingWindowRateLimiter.cleanup_window, SlidingWindowRateLimiter.cleanupDeque,
      ThrottlingRateLimiter.init, ThrottlingRateLimiter.record_message,
      ThrottlingRateLimiter.can_send_message, setStore]

/-- Claim C5 as amended: construction performs no validation — any
`window_size`, `max_requests` or `min_interval` value (non-positive
included) is stored as given and the limiter operates with it; with
`max_requests = 0` every record call is rejected yet still creates an
empty per-identity entry, and with `min_interval ≤ 0` two records at the
same instant are both admitted. -/
theorem construction_accepts_any_config
    (ws mi t : ℚ) (mr : ℤ) (u : String) (hmi : mi ≤ 0) :
    ((SlidingWindowRateLimiter.init ws mr).window_size = ws) ∧
    ((SlidingWindowRateLimiter.init ws mr).max_requests = mr) ∧
    ((ThrottlingRateLimiter.init mi).min_interval = mi) ∧
    (((SlidingWindowRateLimiter.init ws 0).record_message u t).2 = false) ∧
    ((((SlidingWindowRateLimiter.init ws 0).record_message u t).1).user_records
      u = some []) ∧
    (((ThrottlingRateLimiter.init mi).record_message u t).2 = true) ∧
    (((((ThrottlingRateLimiter.init mi).record_message u t).1).record_message
      u t).2 = true) := by
  have hnone : (SlidingWindowRateLimiter.init ws 0).user_records u = none := rfl
  have hcn : ((SlidingWindowRateLimiter.init ws 0).cleanup_window u t).user_records
      u = none := by
    rw [SlidingWindowRateLimiter.cleanup_window_absent t hnone]
    exact hnone
  obtain ⟨hlk, hsnd⟩ :=
    SlidingWindowRateLimiter.record_message_absent_nonpos hcn (le_refl 0)
  have hTnone : (ThrottlingRateLimiter.init mi).user_last_timestamp u = none := rfl
  have hT1 : (ThrottlingRateLimiter.init mi).can_send_message u t = true :=
    ThrottlingRateLimiter.throttling_can_send_absent t hTnone
  obtain ⟨hTlk, hTsnd⟩ := ThrottlingRateLimiter.record_message_of_can_send hT1
  have hTmi : (((ThrottlingRateLimiter.init mi).record_message u t).1).min_interval
      = mi := ThrottlingRateLimiter.record_message_min_interval _ u t
  have hT2 : (((ThrottlingRateLimiter.init mi).record_message u t).1).can_send_message
      u t = true := by
    rw [ThrottlingRateLimiter.throttling_can_send_present t hTlk, hTmi]
    simpa using hmi
  exact ⟨rfl, rfl, rfl, hsnd, hlk, hTsnd,
    (ThrottlingRateLimiter.record_message_of_can_send hT2).2⟩

/-- Witness for the amended claim C5 at `window_size = 7`,
`min_interval = -2`, time 4. -/
theorem construction_accepts_any_config_witness :
    ((SlidingWindowRateLimiter.init 7 3).window_size = 7) ∧
    ((SlidingWindowRateLimiter.init 7 3).max_requests = 3) ∧
    ((ThrottlingRateLimiter.init (-2)).min_interval = -2) ∧
    (((SlidingWindowRateLimiter.init 7 0).record_message "u" 4).2 = false) ∧
    ((((SlidingWindowRateLimiter.init 7 0).record_message "u" 4).1).user_records
      "u" = some []) ∧
    (((ThrottlingRateLimiter.init (-2)).record_message "u" 4).2 = true) ∧
    (((((ThrottlingRateLimiter.init (-2)).record_message "u" 4).1).record_message
      "u" 4).2 = true) :=
  construction_accepts_any_config 7 (-2) 4 3 "u" (by norm_num)

/-- Claim C6 counterexample: an admission check for a never-seen identity
does NOT create a store entry — after `can_send_message "u"` on a fresh
sliding-window limiter (which returns `true`), the identity is still
absent from the store. -/
theorem can_send_does_not_create_entry :
    ((((SlidingWindowRateLimiter.init 10 1).can_send_message "u" 0).2 = true)) ∧
    ((((SlidingWindowRateLimiter.init 10 1).can_send_message "u" 0).1).user_records
      "u" = none) := by
  constructor <;> rfl

/-- Claim C6 as amended: a per-identity entry is created only by
`record_message` — for the sliding-window limiter any record call on an
absent identity inserts an entry, and for the fixed-interval limiter an
admitted record does; `can_send_message` never creates an entry (for the
sliding window it performs only the cleanup, which is a no-op on an absent
identity, and for the fixed-interval limiter it is a pure read). -/
theorem entry_created_only_by_record
    (L : SlidingWindowRateLimiter) (T : ThrottlingRateLimiter)
    (u : String) (now : ℚ)
    (hL : L.user_records u = none) (hT : T.user_last_timestamp u = none) :
    ((L.can_send_message u now).1 = L) ∧
    (((L.record_message u now).1).user_records u ≠ none) ∧
    (T.can_send_message u now = true) ∧
    ((T.record_message u now).2 = true) ∧
    (((T.record_message u now).1).user_last_timestamp u = some now) := by
  have hcw : L.cleanup_window u now = L :=
    SlidingWindowRateLimiter.cleanup_window_absent now hL
  have hcn : (L.cleanup_window u now).user_records u = none := by
    rw [hcw]; exact hL
  have hTcs : T.can_send_message u now = true :=
    ThrottlingRateLimiter.throttling_can_send_absent now hT
  obtain ⟨hTlk, hTsnd⟩ := ThrottlingRateLimiter.record_message_of_can_send hTcs
  refine ⟨by rw [SlidingWindowRateLimiter.can_send_message_fst, hcw], ?_,
    hTcs, hTsnd, hTlk⟩
  by_cases hpos : 0 < L.max_requests
  · obtain ⟨hlk, _⟩ := SlidingWindowRateLimiter.record_message_absent_pos hcn hpos
    rw [hlk]
    simp
  · obtain ⟨hlk, _⟩ :=
      SlidingWindowRateLimiter.record_message_absent_nonpos hcn (not_lt.mp hpos)
    rw [hlk]
    simp

/-- Witness for the amended claim C6 on fresh limiters at time 0. -/
theorem entry_created_only_by_record_witness :
    (((SlidingWindowRateLimiter.init 10 1).can_send_message "u" 0).1 =
      SlidingWindowRateLimiter.init 10 1) ∧
    ((((SlidingWindowRateLimiter.init 10 1).record_message "u" 0).1).user_records
      "u" ≠ none) ∧
    ((ThrottlingRateLimiter.init 10).can_send_message "u" 0 = true) ∧
    (((ThrottlingRateLimiter.init 10).record_message "u" 0).2 = true) ∧
    ((((ThrottlingRateLimiter.init 10).record_message "u" 0).1).user_last_timestamp
      "u" = some 0) :=
  entry_created_only_by_record (SlidingWindowRateLimiter.init 10 1)
    (ThrottlingRateLimiter.init 10) "u" 0 rfl rfl

/-- Claim C7 counterexample: the throttling limiter never reclaims a store
entry — after an admitted record at time 0 with `min_interval = 10`, at
time 100 the interval has long expired (admission is granted again), yet
the identity's last-timestamp entry is still present in the store. -/
theorem throttling_entry_never_reclaimed :
    ((((ThrottlingRateLimiter.init 10).record_message "u" 0).1).can_send_message
      "u" 100 = true) ∧
    ((((ThrottlingRateLimiter.init 10).record_message "u" 0).1).user_last_timestamp
      "u" = some 0) := by
  constructor <;>
    norm_num [ThrottlingRateLimiter.init, ThrottlingRateLimiter.record_message,
      ThrottlingRateLimiter.can_send_message, setStore]

/-- Claim C7 as amended: the sliding-window limiter deletes an identity's
entry exactly when cleanup empties its deque, so after any operation no
identity maps to an empty deque (given `max_requests ≥ 1`), and a fresh
limiter has no entries; the fixed-interval limiter, by contrast, never
deletes an entry — once an identity has a recorded timestamp, it keeps one
forever (`record_message` only overwrites it). -/
theorem store_reclamation_amended
    (L : SlidingWindowRateLimiter) (T : ThrottlingRateLimiter)
    (u v : String) (o : Op) (t t2 ts : ℚ) (w : List ℚ)
    (hmr : 1 ≤ L.max_requests) (hv : L.user_records v ≠ some []) :
    ((stepOp L u o t).user_records v ≠ some []) ∧
    (L.user_records u = some w →
      ((L.cleanup_window u t).user_records u = none ↔
        SlidingWindowRateLimiter.cleanupDeque L.window_size t w = [])) ∧
    ((SlidingWindowRateLimiter.init L.window_size
      L.max_requests).user_records u = none) ∧
    (T.user_last_timestamp u = some ts →
      ((T.record_message u t2).1).user_last_timestamp u ≠ none) := by
  refine ⟨?_, ?_, rfl, ?_⟩
  · by_cases hvu : v = u
    · subst hvu
      cases o with
      | can_send =>
          rw [stepOp, SlidingWindowRateLimiter.can_send_message_fst]
          exact SlidingWindowRateLimiter.cleanup_window_ne_some_nil L v t
      | time_next =>
          rw [stepOp, SlidingWindowRateLimiter.time_until_next_allowed_fst]
          exact SlidingWindowRateLimiter.cleanup_window_ne_some_nil L v t
      | record =>
          rw [stepOp]
          cases hc : (L.cleanup_window v t).user_records v with
          | none =>
              have hpos : 0 < L.max_requests := lt_of_lt_of_le zero_lt_one hmr
              obtain ⟨hlk, _⟩ :=
                SlidingWindowRateLimiter.record_message_absent_pos hc hpos
              rw [hlk]
              simp
          | some w' =>
              by_cases hlt : ((w'.length : ℤ) < L.max_requests)
              · obtain ⟨hlk, _⟩ :=
                  SlidingWindowRateLimiter.record_message_present_lt hc hlt
                rw [hlk]
                simp
              · have hrec := SlidingWindowRateLimiter.record_message_present_ge hc
                  (not_lt.mp hlt)
                have : (L.record_message v t).1 = L.cleanup_window v t := by
                  rw [hrec]
                rw [this]
                exact SlidingWindowRateLimiter.cleanup_window_ne_some_nil L v t
    · rw [stepOp_frame L u o t hvu]
      exact hv
  · intro hw
    rw [SlidingWindowRateLimiter.cleanup_window_lookup_some t hw]
    exact optOfList_eq_none
  · intro hts
    by_cases hcs : T.can_send_message u t2 = true
    · obtain ⟨hlk, _⟩ := ThrottlingRateLimiter.record_message_of_can_send hcs
      rw [hlk]
      simp
    · have hrec := ThrottlingRateLimiter.record_message_of_not_can_send
        (Bool.eq_false_iff.mpr (by simpa using hcs))
      have : (T.record_message u t2).1 = T := by rw [hrec]
      rw [this, hts]
      simp

/-- Witness for the amended claim C7 at a concrete state. -/
theorem store_reclamation_amended_witness :
    ((stepOp (SlidingWindowRateLimiter.mk 10 1
        (setStore (fun _ => none) "u" (some [0]))) "u" Op.record 5).user_records
      "v" ≠ some []) ∧
    ((SlidingWindowRateLimiter.mk 10 1
        (setStore (fun _ => none) "u" (some [0]))).user_records "u" = some [0] →
      (((SlidingWindowRateLimiter.mk 10 1
          (setStore (fun _ => none) "u" (some [0]))).cleanup_window "u"
            5).user_records "u" = none ↔
        SlidingWindowRateLimiter.cleanupDeque
          (SlidingWindowRateLimiter.mk 10 1
            (setStore (fun _ => none) "u" (some [0]))).window_size 5 [0] = [])) ∧
    ((SlidingWindowRateLimiter.init
      (SlidingWindowRateLimiter.mk 10 1
        (setStore (fun _ => none) "u" (some [0]))).window_size
      (SlidingWindowRateLimiter.mk 10 1
        (setStore (fun _ => none) "u" (some [0]))).max_requests).user_records
      "u" = none) ∧
    ((ThrottlingRateLimiter.mk 10
        (setStore (fun _ => none) "u" (some 0))).user_last_timestamp "u" = some 0 →
      (((ThrottlingRateLimiter.mk 10
        (setStore (fun _ => none) "u" (some 0))).record_message "u"
          3).1).user_last_timestamp "u" ≠ none) :=
  store_reclamation_amended
    (SlidingWindowRateLimiter.mk 10 1 (setStore (fun _ => none) "u" (some [0])))
    (ThrottlingRateLimiter.mk 10 (setStore (fun _ => none) "u" (some 0)))
    "u" "v" Op.record 5 3 0 [0] (le_refl 1) (by simp [setStore])

/-- Claim C8: for both limiters, a `record_message` call that returns
`false` (a genuine rejection, with `max_requests ≥ 1` for the sliding
window) leaves `time_until_next_allowed`, evaluated at the same instant on
the post-call state, strictly positive. -/
theorem rejection_positive_wait
    (L : SlidingWindowRateLimiter) (T : ThrottlingRateLimiter)
    (u : String) (now : ℚ) (hmr : 1 ≤ L.max_requests) :
    ((L.record_message u now).2 = false →
      0 < (((L.record_message u now).1).time_until_next_allowed u now).2) ∧
    ((T.record_message u now).2 = false →
      0 < ((T.record_message u now).1).time_until_next_allowed u now) := by
  constructor
  · intro hf
    have hfst : (L.record_message u now).1 = L.cleanup_window u now :=
      record_message_rejected_no_mutation L u now hmr hf
    rw [hfst]
    have hiff := record_message_true_iff L u now
    have hge : L.max_requests ≤ ((postClean L u now).length : ℤ) := by
      by_contra hc
      rw [hf] at hiff
      exact absurd (hiff.mpr (not_le.mp hc)) (by simp)
    cases hc : (L.cleanup_window u now).user_records u with
    | none =>
        have : postClean L u now = [] := by rw [postClean, hc]; rfl
        rw [this] at hge
        simp at hge
        omega
    | some w =>
        have hpc : postClean L u now = w := by rw [postClean, hc]; rfl
        rw [hpc] at hge
        have hwne : w ≠ [] := by
          intro hnil
          rw [hnil] at hge
          simp at hge
          omega
        obtain ⟨x, xs, hxw⟩ := List.exists_cons_of_ne_nil hwne
        -- recover the freshness of the head from the cleanup that produced it
        cases h0 : L.user_records u with
        | none =>
            rw [SlidingWindowRateLimiter.cleanup_window_absent now h0, h0] at hc
            exact absurd hc (by simp)
        | some w0 =>
            have hdq : SlidingWindowRateLimiter.cleanupDeque L.window_size now w0
                = w := by
              have := SlidingWindowRateLimiter.cleanup_window_lookup_some now h0
              rw [hc] at this
              exact (optOfList_eq_some this.symm)
            have hfresh : now - x < L.window_size := by
              apply SlidingWindowRateLimiter.cleanupDeque_head_fresh
                L.window_size now w0 x xs
              rw [hdq, hxw]
            -- the second cleanup, at the same instant, keeps the deque intact
            have hC := SlidingWindowRateLimiter.cleanup_window_lookup_some
              (L := L.cleanup_window u now) now (w := w) hc
            rw [SlidingWindowRateLimiter.cleanup_window_window_size] at hC
            rw [hxw] at hC
            rw [SlidingWindowRateLimiter.cleanupDeque_fresh_head _ now x xs hfresh]
              at hC
            rw [optOfList_ne_nil (by simp)] at hC
            rw [SlidingWindowRateLimiter.time_until_next_allowed_present hC]
            rw [SlidingWindowRateLimiter.cleanup_window_window_size]
            have : 0 < L.window_size - (now - (x :: xs).headD 0) := by
              simp only [List.headD_cons]
              linarith
            exact lt_of_lt_of_le this (le_max_left _ _)
  · intro hf
    rw [ThrottlingRateLimiter.record_message_snd] at hf
    have hfst : (T.record_message u now).1 = T := by
      rw [ThrottlingRateLimiter.record_message_of_not_can_send hf]
    rw [hfst]
    cases hts : T.user_last_timestamp u with
    | none =>
        rw [ThrottlingRateLimiter.throttling_can_send_absent now hts] at hf
        exact absurd hf (by simp)
    | some ts =>
        rw [ThrottlingRateLimiter.throttling_can_send_present now hts] at hf
        have hlt : now - ts < T.min_interval := by
          by_contra hc
          rw [decide_eq_true (not_lt.mp hc)] at hf
          exact absurd hf (by simp)
        rw [ThrottlingRateLimiter.throttling_time_until_present now hts]
        have : 0 < T.min_interval - (now - ts) := by linarith
        exact lt_of_lt_of_le this (le_max_left _ _)

/-- Witness for claim C8: with window 10, limit 1, an entry at time 5 and
a record attempt at time 6 (rejected), resp. interval 10, last timestamp
5, record attempt at 6. -/
theorem rejection_positive_wait_witness :
    (((SlidingWindowRateLimiter.mk 10 1
        (setStore (fun _ => none) "u" (some [5]))).record_message "u" 6).2 = false →
      0 < ((((SlidingWindowRateLimiter.mk 10 1
        (setStore (fun _ => none) "u" (some [5]))).record_message "u"
          6).1).time_until_next_allowed "u" 6).2) ∧
    (((ThrottlingRateLimiter.mk 10
        (setStore (fun _ => none) "u" (some 5))).record_message "u" 6).2 = false →
      0 < (((ThrottlingRateLimiter.mk 10
        (setStore (fun _ => none) "u" (some 5))).record_message "u"
          6).1).time_until_next_allowed "u" 6) :=
  rejection_positive_wait
    (SlidingWindowRateLimiter.mk 10 1 (setStore (fun _ => none) "u" (some [5])))
    (ThrottlingRateLimiter.mk 10 (setStore (fun _ => none) "u" (some 5)))
    "u" 6 (le_refl 1)

/-- Claim C9 counterexample: for the sliding-window limiter with window 10
and `max_requests = 2`, after admitted records at times 0 and 9 and no
further records, `time_until_next_allowed` returns `1/2` at time `19/2`
but `9` at the later time `10` — the reported wait INCREASES as the clock
advances, refuting monotonic wait decay. -/
theorem sliding_window_wait_not_monotone :
    ((((SlidingWindowRateLimiter.init 10 2).record_message "u" 0).2 = true)) ∧
    ((((((SlidingWindowRateLimiter.init 10 2).record_message "u" 0).1)).record_message
      "u" 9).2 = true) ∧
    ((((((((SlidingWindowRateLimiter.init 10 2).record_message "u"
      0).1)).record_message "u" 9).1).time_until_next_allowed "u" (19/2)).2 = 1/2) ∧
    (((((((((SlidingWindowRateLimiter.init 10 2).record_message "u"
      0).1)).record_message "u" 9).1).time_until_next_allowed "u"
        (19/2)).1.time_until_next_allowed "u" 10).2 = 9) ∧
    ((19/2 : ℚ) ≤ 10) ∧ ¬((9 : ℚ) ≤ 1/2) := by
  have hn0 : ((SlidingWindowRateLimiter.init 10 2).cleanup_window
      "u" 0).user_records "u" = none := rfl
  obtain ⟨hl1, hb1⟩ := SlidingWindowRateLimiter.record_message_absent_pos hn0
    (by decide : (0 : ℤ) < (SlidingWindowRateLimiter.init 10 2).max_requests)
  have hw1 : ((SlidingWindowRateLimiter.init 10 2).record_message
      "u" 0).1.window_size = 10 :=
    (SlidingWindowRateLimiter.record_message_window_size _ "u" 0).trans rfl
  have hm1 : ((SlidingWindowRateLimiter.init 10 2).record_message
      "u" 0).1.max_requests = 2 :=
    (SlidingWindowRateLimiter.record_message_max_requests _ "u" 0).trans rfl
  have hc1 := SlidingWindowRateLimiter.cleanup_window_lookup_some 9 hl1
  rw [hw1, SlidingWindowRateLimiter.cleanupDeque_fresh_head 10 9 0 [] (by norm_num),
    optOfList_ne_nil (by simp)] at hc1
  obtain ⟨hl2, hb2⟩ := SlidingWindowRateLimiter.record_message_present_lt hc1
    (by rw [hm1]; norm_num)
  simp only [List.cons_append, List.nil_append] at hl2
  have hw2 : (((SlidingWindowRateLimiter.init 10 2).record_message
      "u" 0).1.record_message "u" 9).1.window_size = 10 :=
    (SlidingWindowRateLimiter.record_message_window_size _ "u" 9).trans hw1
  have hc2 := SlidingWindowRateLimiter.cleanup_window_lookup_some (19/2) hl2
  rw [hw2, SlidingWindowRateLimiter.cleanupDeque_fresh_head 10 (19/2) 0 [9]
    (by norm_num), optOfList_ne_nil (by simp)] at hc2
  have hv1 := SlidingWindowRateLimiter.time_until_next_allowed_present hc2
  rw [hw2] at hv1
  have hv1e : ((((SlidingWindowRateLimiter.init 10 2).record_message
      "u" 0).1.record_message "u" 9).1.time_until_next_allowed "u" (19/2)).2
        = 1/2 := by
    rw [hv1]
    simp only [List.headD_cons]
    rw [show (10 : ℚ) - (19/2 - 0) = 1/2 by norm_num, max_eq_left (by norm_num)]
  -- the state after the third call is the cleaned state, still holding [0, 9]
  have hfst3 := SlidingWindowRateLimiter.time_until_next_allowed_fst
    (((SlidingWindowRateLimiter.init 10 2).record_message
      "u" 0).1.record_message "u" 9).1 "u" (19/2)
  have hl3 : ((((SlidingWindowRateLimiter.init 10 2).record_message
      "u" 0).1.record_message "u" 9).1.time_until_next_allowed "u"
        (19/2)).1.user_records "u" = some [0, 9] := by
    rw [hfst3]
    exact hc2
  have hw3 : ((((SlidingWindowRateLimiter.init 10 2).record_message
      "u" 0).1.record_message "u" 9).1.time_until_next_allowed "u"
        (19/2)).1.window_size = 10 := by
    rw [hfst3, SlidingWindowRateLimiter.cleanup_window_window_size]
    exact hw2
  have hdq : SlidingWindowRateLimiter.cleanupDeque 10 10 [0, 9] = [9] := by
    rw [SlidingWindowRateLimiter.cleanupDeque, if_pos (by norm_num)]
    exact SlidingWindowRateLimiter.cleanupDeque_fresh_head 10 10 9 [] (by norm_num)
  have hc3 := SlidingWindowRateLimiter.cleanup_window_lookup_some 10 hl3
  rw [hw3, hdq, optOfList_ne_nil (by simp)] at hc3
  have hv2 := SlidingWindowRateLimiter.time_until_next_allowed_present hc3
  rw [hw3] at hv2
  have hv2e : (((((SlidingWindowRateLimiter.init 10 2).record_message
      "u" 0).1.record_message "u" 9).1.time_until_next_allowed "u"
        (19/2)).1.time_until_next_allowed "u" 10).2 = 9 := by
    rw [hv2]
    simp only [List.headD_cons]
    rw [show (10 : ℚ) - (10 - 9) = 9 by norm_num, max_eq_left (by norm_num)]
  exact ⟨hb1, hb2, hv1e, hv2e, by norm_num, by norm_num⟩

/-- Claim C9 as amended: monotonic wait decay holds for the fixed-interval
limiter and for the sliding-window limiter whenever the identity holds at
most one entry (as is always the case for `max_requests = 1`): with no
further records the reported wait is non-increasing as the clock advances.
The fixed-interval wait is `0` for a never-seen identity and otherwise
`max(0, min_interval - (now - last_timestamp))`, reaching exactly `0` at
the boundary `last_timestamp + min_interval` and staying `0` afterwards.
For the sliding window with two stored entries (`max_requests ≥ 2`) decay
fails — see the counterexample. -/
theorem wait_decay_amended
    (L : SlidingWindowRateLimiter) (T : ThrottlingRateLimiter)
    (u : String) (t0 t1 t2 ts : ℚ) (h12 : t1 ≤ t2)
    (hLu : L.user_records u = none ∨
      (L.user_records u = some [t0] ∧ t0 ≤ t1)) :
    (T.time_until_next_allowed u t2 ≤ T.time_until_next_allowed u t1) ∧
    (T.user_last_timestamp u = none → T.time_until_next_allowed u t1 = 0) ∧
    (T.user_last_timestamp u = some ts →
      T.time_until_next_allowed u t1 = max (T.min_interval - (t1 - ts)) 0) ∧
    (T.user_last_timestamp u = some ts →
      T.time_until_next_allowed u (ts + T.min_interval) = 0) ∧
    (T.user_last_timestamp u = some ts → ts + T.min_interval ≤ t2 →
      T.time_until_next_allowed u t2 = 0) ∧
    ((((L.time_until_next_allowed u t1).1).time_until_next_allowed u t2).2 ≤
      (L.time_until_next_allowed u t1).2) := by
  refine ⟨?_, ?_, ?_, ?_, ?_, ?_⟩
  · cases hts : T.user_last_timestamp u with
    | none =>
        rw [ThrottlingRateLimiter.throttling_time_until_absent t1 hts,
          ThrottlingRateLimiter.throttling_time_until_absent t2 hts]
    | some ts' =>
        rw [ThrottlingRateLimiter.throttling_time_until_present t1 hts,
          ThrottlingRateLimiter.throttling_time_until_present t2 hts]
        exact max_le_max (by linarith) le_rfl
  · intro h
    exact ThrottlingRateLimiter.throttling_time_until_absent t1 h
  · intro h
    exact ThrottlingRateLimiter.throttling_time_until_present t1 h
  · intro h
    rw [ThrottlingRateLimiter.throttling_time_until_present _ h]
    have he : T.min_interval - (ts + T.min_interval - ts) = 0 := by ring
    rw [he]
    simp
  · intro h hb
    rw [ThrottlingRateLimiter.throttling_time_until_present _ h]
    exact max_eq_right (by linarith)
  · rw [SlidingWindowRateLimiter.time_until_next_allowed_fst]
    rcases hLu with hn | ⟨hs, ht01⟩
    · have hcw1 : L.cleanup_window u t1 = L :=
        SlidingWindowRateLimiter.cleanup_window_absent t1 hn
      rw [hcw1]
      have hc1 : (L.cleanup_window u t1).user_records u = none := by
        rw [hcw1]; exact hn
      have hc2 : (L.cleanup_window u t2).user_records u = none := by
        rw [SlidingWindowRateLimiter.cleanup_window_absent t2 hn]; exact hn
      rw [SlidingWindowRateLimiter.time_until_next_allowed_absent hc1,
        SlidingWindowRateLimiter.time_until_next_allowed_absent hc2]
    · have hc1 := SlidingWindowRateLimiter.cleanup_window_lookup_some t1 hs
      by_cases hst : L.window_size ≤ t1 - t0
      · -- the sole entry is already stale at the earlier instant
        rw [SlidingWindowRateLimiter.cleanupDeque, if_pos hst,
          SlidingWindowRateLimiter.cleanupDeque] at hc1
        have hc1n : (L.cleanup_window u t1).user_records u = none := by
          rw [hc1]; rfl
        have hc2n : ((L.cleanup_window u t1).cleanup_window u t2).user_records
            u = none := by
          rw [SlidingWindowRateLimiter.cleanup_window_absent t2 hc1n]
          exact hc1n
        rw [SlidingWindowRateLimiter.time_until_next_allowed_absent hc1n,
          SlidingWindowRateLimiter.time_until_next_allowed_absent hc2n]
      · have hfr : t1 - t0 < L.window_size := not_le.mp hst
        rw [SlidingWindowRateLimiter.cleanupDeque_fresh_head _ t1 t0 [] hfr,
          optOfList_ne_nil (by simp)] at hc1
        have hv1 := SlidingWindowRateLimiter.time_until_next_allowed_present hc1
        rw [hv1]
        have hc2 := SlidingWindowRateLimiter.cleanup_window_lookup_some t2
          (L := L.cleanup_window u t1) hc1
        rw [SlidingWindowRateLimiter.cleanup_window_window_size] at hc2
        by_cases hst2 : L.window_size ≤ t2 - t0
        · rw [SlidingWindowRateLimiter.cleanupDeque, if_pos hst2,
            SlidingWindowRateLimiter.cleanupDeque] at hc2
          have hc2n : ((L.cleanup_window u t1).cleanup_window u t2).user_records
              u = none := by
            rw [hc2]; rfl
          rw [SlidingWindowRateLimiter.time_until_next_allowed_absent hc2n]
          exact le_max_right _ _
        · have hfr2 : t2 - t0 < L.window_size := not_le.mp hst2
          rw [SlidingWindowRateLimiter.cleanupDeque_fresh_head _ t2 t0 [] hfr2,
            optOfList_ne_nil (by simp)] at hc2
          have hv2 := SlidingWindowRateLimiter.time_until_next_allowed_present hc2
          rw [hv2, SlidingWindowRateLimiter.cleanup_window_window_size]
          exact max_le_max (by linarith) le_rfl

/-- Witness for the amended claim C9: interval 10 with last timestamp 0,
window 10 with a sole entry at 0, observed at times 4 and 6. -/
theorem wait_decay_amended_witness :
    ((ThrottlingRateLimiter.mk 10
        (setStore (fun _ => none) "u" (some 0))).time_until_next_allowed "u" 6 ≤
      (ThrottlingRateLimiter.mk 10
        (setStore (fun _ => none) "u" (some 0))).time_until_next_allowed "u" 4) ∧
    ((ThrottlingRateLimiter.mk 10
        (setStore (fun _ => none) "u" (some 0))).user_last_timestamp "u" = none →
      (ThrottlingRateLimiter.mk 10
        (setStore (fun _ => none) "u" (some 0))).time_until_next_allowed "u" 4 = 0) ∧
    ((ThrottlingRateLimiter.mk 10
        (setStore (fun _ => none) "u" (some 0))).user_last_timestamp "u" = some 0 →
      (ThrottlingRateLimiter.mk 10
        (setStore (fun _ => none) "u" (some 0))).time_until_next_allowed "u" 4 =
        max ((ThrottlingRateLimiter.mk 10
          (setStore (fun _ => none) "u" (some 0))).min_interval - (4 - 0)) 0) ∧
    ((ThrottlingRateLimiter.mk 10
        (setStore (fun _ => none) "u" (some 0))).user_last_timestamp "u" = some 0 →
      (ThrottlingRateLimiter.mk 10
        (setStore (fun _ => none) "u" (some 0))).time_until_next_allowed "u"
        (0 + (ThrottlingRateLimiter.mk 10
          (setStore (fun _ => none) "u" (some 0))).min_interval) = 0) ∧
    ((ThrottlingRateLimiter.mk 10
        (setStore (fun _ => none) "u" (some 0))).user_last_timestamp "u" = some 0 →
      0 + (ThrottlingRateLimiter.mk 10
        (setStore (fun _ => none) "u" (some 0))).min_interval ≤ 6 →
      (ThrottlingRateLimiter.mk 10
        (setStore (fun _ => none) "u" (some 0))).time_until_next_allowed "u" 6 = 0) ∧
    ((((SlidingWindowRateLimiter.mk 10 1
        (setStore (fun _ => none) "u" (some [0]))).time_until_next_allowed "u"
          4).1.time_until_next_allowed "u" 6).2 ≤
      ((SlidingWindowRateLimiter.mk 10 1
        (setStore (fun _ => none) "u" (some [0]))).time_until_next_allowed "u" 4).2) :=
  wait_decay_amended
    (SlidingWindowRateLimiter.mk 10 1 (setStore (fun _ => none) "u" (some [0])))
    (ThrottlingRateLimiter.mk 10 (setStore (fun _ => none) "u" (some 0)))
    "u" 0 4 6 0 (by norm_num) (Or.inr ⟨by simp [setStore], by norm_num⟩)

/-- Claim C10: per-identity isolation.  Every sliding-window operation
(`can_send_message`, `record_message`, `time_until_next_allowed`) invoked
with identity `u` leaves the stored state of every other identity `v`
unchanged, as does the cleanup they all start with; the fixed-interval
`record_message` likewise (its other two operations do not touch the store
at all). -/
theorem per_identity_isolation
    (L : SlidingWindowRateLimiter) (T : ThrottlingRateLimiter)
    (u v : String) (o : Op) (t : ℚ) (hvu : v ≠ u) :
    ((stepOp L u o t).user_records v = L.user_records v) ∧
    ((L.cleanup_window u t).user_records v = L.user_records v) ∧
    (((T.record_message u t).1).user_last_timestamp v =
      T.user_last_timestamp v) :=
  ⟨stepOp_frame L u o t hvu,
    SlidingWindowRateLimiter.cleanup_window_frame L u t hvu,
    ThrottlingRateLimiter.throttling_record_frame T u t hvu⟩

/-- Witness for claim C10: a record for "u" leaves "v" untouched. -/
theorem per_identity_isolation_witness :
    ((stepOp (SlidingWindowRateLimiter.mk 10 1
        (setStore (fun _ => none) "u" (some [0]))) "u" Op.record 5).user_records
      "v" = (SlidingWindowRateLimiter.mk 10 1
        (setStore (fun _ => none) "u" (some [0]))).user_records "v") ∧
    (((SlidingWindowRateLimiter.mk 10 1
        (setStore (fun _ => none) "u" (some [0]))).cleanup_window "u"
          5).user_records "v" = (SlidingWindowRateLimiter.mk 10 1
        (setStore (fun _ => none) "u" (some [0]))).user_records "v") ∧
    ((((ThrottlingRateLimiter.mk 10
        (setStore (fun _ => none) "u" (some 0))).record_message "u"
          5).1).user_last_timestamp "v" = (ThrottlingRateLimiter.mk 10
        (setStore (fun _ => none) "u" (some 0))).user_last_timestamp "v") :=
  per_identity_isolation
    (SlidingWindowRateLimiter.mk 10 1 (setStore (fun _ => none) "u" (some [0])))
    (ThrottlingRateLimiter.mk 10 (setStore (fun _ => none) "u" (some 0)))
    "u" "v" Op.record 5 (by decide)
